import Mathlib

/-!
Shallow embedding of the `screen` crate (src/lib.rs): an HD44780 character-LCD
driver speaking through a 4-bit I/O expander on a serial bus.

Modelling conventions:
* `u8` values are `Nat`s; arithmetic that the source performs on `u8` is taken
  modulo 256 where it can leave the 8-bit range (release-mode wrapping
  semantics); array indexing out of bounds is modelled as a `panic` outcome.
* The bus handle owned by the driver is modelled as an oracle
  `bus : Nat → Option ε`: the k-th write attempt (counted by `widx`) fails
  with error `e` iff `bus k = some e`.
* Every observable effect (bus byte, delay) is appended to a `trace`.
  A bus error in the source returns `Err(e)`; here the `bus` outcome also
  carries the state reached so far, so that the mock-observable side effects
  (trace, attempt count) remain visible.
-/

namespace Screen

/-- Observable events: a byte put on the bus, or a blocking delay. -/
inductive Event where
  | busWrite (b : Nat)
  | delayMs (n : Nat)
  | delayUs (n : Nat)
deriving DecidableEq, Repr

/-- The bytes among a list of events. -/
def busBytes : List Event → List Nat
  | [] => []
  | Event.busWrite b :: tr => b :: busBytes tr
  | _ :: tr => busBytes tr

/- Flag enumerations of the source, as named numeric constants
   (each Rust variant carries a fixed bit-pattern). -/

namespace Cursor
def On : Nat := 0x02
def Off : Nat := 0x00
end Cursor

namespace Blink
def On : Nat := 0x01
def Off : Nat := 0x00
end Blink

namespace Display
def On : Nat := 0x04
def Off : Nat := 0x00
end Display

namespace Backlight
def On : Nat := 0x08
def Off : Nat := 0x00
end Backlight

namespace Mode
def COMMAND : Nat := 0x00
def CLEARDISPLAY : Nat := 0x01
def RETURNHOME : Nat := 0x02
def ENTRYMODESET : Nat := 0x04
def DISPLAYCONTROL : Nat := 0x08
def CURSORSHIFT : Nat := 0x10
def FUNCTIONSET : Nat := 0x20
def SETCGRAMADDR : Nat := 0x40
def SETDDRAMADDR : Nat := 0x80
end Mode

namespace Entries
def RIGHT : Nat := 0x00
def LEFT : Nat := 0x02
end Entries

namespace Direction
def RIGHT : Nat := 0x04
def LEFT : Nat := 0x00
end Direction

namespace Shift
def INCREMENT : Nat := 0x01
def DECREMENT : Nat := 0x00
end Shift

namespace BitMode
def Bit4 : Nat := 0x00
def Bit8 : Nat := 0x10
end BitMode

namespace Dots
def Dots5x8 : Nat := 0x00
def Dots5x10 : Nat := 0x04
end Dots

namespace Lines
def OneLine : Nat := 0x00
def TwoLine : Nat := 0x08
end Lines

namespace BitAction
def Command : Nat := 0x00
def Enable : Nat := 0x04
def ReadWrite : Nat := 0x02
def RegisterSelect : Nat := 0x01
end BitAction

/-- Driver state: the `Lcd` struct (its `DisplayControl` field inlined as the
four flag fields plus `direction`), together with the modelled bus oracle,
the write-attempt counter and the event trace. -/
structure St (ε : Type) where
  bus : Nat → Option ε
  widx : Nat
  backlight : Nat
  cursor : Nat
  display : Nat
  blink : Nat
  direction : Nat
  address : Nat
  rows : Nat
  row_offsets : List Nat
  trace : List Event

/-- `DisplayControl::value`: blink | cursor | display | backlight. -/
def controlValue (s : St ε) : Nat :=
  s.blink ||| s.cursor ||| s.display ||| s.backlight

/-- Result of one driver operation: success, a propagated bus error, or a
Rust panic (out-of-bounds index / `clamp` precondition failure). The state
reached so far is carried in every case so side effects stay observable. -/
inductive Outcome (ε : Type) where
  | ok (s : St ε)
  | bus (e : ε) (s : St ε)
  | panic (s : St ε)

/-- The state carried by an outcome. -/
def Outcome.state : Outcome ε → St ε
  | .ok s => s
  | .bus _ s => s
  | .panic s => s

/-- Whether the outcome is a propagated bus error. -/
def Outcome.isBusErr : Outcome ε → Bool
  | .bus _ _ => true
  | _ => false

/-- Whether the outcome is a success. -/
def Outcome.isOk : Outcome ε → Bool
  | .ok _ => true
  | _ => false

/-- Whether the outcome is a panic. -/
def Outcome.isPanic : Outcome ε → Bool
  | .panic _ => true
  | _ => false

/-- Sequencing with `?`-propagation: bus errors and panics abort. -/
def andThen (o : Outcome ε) (f : St ε → Outcome ε) : Outcome ε :=
  match o with
  | .ok s => f s
  | .bus e s => .bus e s
  | .panic s => .panic s

/-- `let _ = ...`: a bus error is discarded (a panic would still unwind). -/
def ignoreErr (o : Outcome ε) : Outcome ε :=
  match o with
  | .ok s => .ok s
  | .bus _ s => .ok s
  | .panic s => .panic s

/-- Wrapping `u8` subtraction (release-mode semantics), for `a, b < 256`. -/
def u8sub (a b : Nat) : Nat := (a + 256 - b) % 256

/-- Rust `Ord::clamp` on `u8`: panics (`none`) when `lo > hi`. -/
def u8clamp (x lo hi : Nat) : Option Nat :=
  if hi < lo then none else some (min (max x lo) hi)

namespace Lcd

/-- `delay.delay_ms(n)`: infallible, records the delay. -/
def delay_ms (n : Nat) (s : St ε) : St ε :=
  { s with trace := s.trace ++ [Event.delayMs n] }

/-- `delay.delay_us(n)`: infallible, records the delay. -/
def delay_us (n : Nat) (s : St ε) : St ε :=
  { s with trace := s.trace ++ [Event.delayUs n] }

/-- `Lcd::expander_write`: one bus write of `data | control.backlight`.
The oracle decides whether this (the `widx`-th) attempt fails. -/
def expander_write (data : Nat) (s : St ε) : Outcome ε :=
  match s.bus s.widx with
  | some e => .bus e { s with widx := s.widx + 1 }
  | none => .ok { s with
      widx := s.widx + 1,
      trace := s.trace ++ [Event.busWrite ((data ||| s.backlight) % 256)] }

/-- `Lcd::pulse_enable`: enable high, ≥1 µs, enable low, ≥1 µs.
`data & !Enable` on `u8` is `data &&& 0xFB`. -/
def pulse_enable (data : Nat) (s : St ε) : Outcome ε :=
  andThen (expander_write (data ||| BitAction.Enable) s) fun s1 =>
  andThen (expander_write (data &&& 0xFB) (delay_us 1 s1)) fun s2 =>
  Outcome.ok (delay_us 1 s2)

/-- `Lcd::write4bits`: expander write of the nibble, then the enable pulse. -/
def write4bits (value : Nat) (s : St ε) : Outcome ε :=
  andThen (expander_write value s) (pulse_enable value)

/-- `Lcd::send`: split the byte into nibbles, high first, each OR'd with the
role tag, each through `write4bits`. -/
def send (data mode : Nat) (s : St ε) : Outcome ε :=
  andThen (write4bits ((data &&& 0xF0) ||| mode) s)
    (write4bits (((data <<< 4) &&& 0xF0) ||| mode))

/-- `Lcd::command`: send with the `Command` role. -/
def command (value : Nat) (s : St ε) : Outcome ε :=
  send value BitAction.Command s

/-- `Lcd::write`: send one data byte with the `RegisterSelect` role. -/
def write (value : Nat) (s : St ε) : Outcome ε :=
  send value BitAction.RegisterSelect s

/-- `Lcd::write_display_control`. -/
def write_display_control (s : St ε) : Outcome ε :=
  command (Mode.DISPLAYCONTROL ||| controlValue s) s

/-- `Lcd::clear`: command 0x01 then a 2 ms delay. -/
def clear (s : St ε) : Outcome ε :=
  andThen (command Mode.CLEARDISPLAY s) fun s => Outcome.ok (delay_ms 2 s)

/-- `Lcd::home`: command 0x02 then a 2 ms delay. -/
def home (s : St ε) : Outcome ε :=
  andThen (command Mode.RETURNHOME s) fun s => Outcome.ok (delay_ms 2 s)

/-- `Lcd::set_cursor_position`: clamp the row to the offset-table bound then
to `rows - 1` (wrapping `u8` subtraction), index the table (panic when out of
bounds), and issue the DDRAM-address command. -/
def set_cursor_position (col row : Nat) (s : St ε) : Outcome ε :=
  let max_rows := s.row_offsets.length
  let row1 := if row ≥ max_rows then max_rows - 1 else row
  let row2 := if row1 ≥ s.rows then u8sub s.rows 1 else row1
  match s.row_offsets.get? row2 with
  | none => .panic s
  | some off => command (Mode.SETDDRAMADDR ||| ((col + off) % 256)) s

/-- `Lcd::create_char`: mask the location to 3 bits, set the CGRAM address,
write the 8 bitmap bytes; every per-write bus error is discarded. -/
def create_char (location : Nat) (charmap : List Nat) (s : St ε) : Outcome ε :=
  andThen (ignoreErr (command (Mode.SETCGRAMADDR ||| ((location &&& 0x7) <<< 3)) s))
    fun s =>
      charmap.foldl (fun o item => andThen o fun s => ignoreErr (write item s))
        (Outcome.ok s)

/-- `Lcd::set_display`. -/
def set_display (d : Nat) (s : St ε) : Outcome ε :=
  write_display_control { s with display := d }

/-- `Lcd::set_cursor`. -/
def set_cursor (c : Nat) (s : St ε) : Outcome ε :=
  write_display_control { s with cursor := c }

/-- `Lcd::set_blink`. -/
def set_blink (b : Nat) (s : St ε) : Outcome ε :=
  write_display_control { s with blink := b }

/-- `Lcd::set_backlight`: update the flag, then a bare `expander_write(0)`
(the new backlight bit rides along). -/
def set_backlight (b : Nat) (s : St ε) : Outcome ε :=
  expander_write 0 { s with backlight := b }

/-- The loop body of `Lcd::print`, with the local `row` made explicit.
`row` is a `u8`, so `row + 1` wraps at 256 (release semantics);
`(row + 1).clamp(1, self.rows)` panics when `rows = 0`;
`c as u8` truncates the char code. -/
def printGo : List Char → Nat → St ε → Outcome ε
  | [], _, s => Outcome.ok s
  | c :: cs, row, s =>
    if c = '\n' then
      match u8clamp ((row + 1) % 256) 1 s.rows with
      | none => .panic s
      | some row2 =>
        andThen (set_cursor_position 0 row2 s) (printGo cs row2)
    else
      andThen (write (c.toNat % 256) s) (printGo cs row)

/-- `Lcd::print`: the local row counter starts at 0 on every call. -/
def print (str : List Char) (s : St ε) : Outcome ε :=
  printGo str 0 s

/-- `Lcd::init`: the power-on initialization sequence. -/
def init (s : St ε) : Outcome ε :=
  let s := delay_ms 50 s
  andThen (expander_write s.backlight s) fun s =>
  let s := delay_ms 1 s
  andThen (write4bits (Mode.FUNCTIONSET ||| BitMode.Bit8) s) fun s =>
  let s := delay_ms 5 s
  andThen (write4bits (Mode.FUNCTIONSET ||| BitMode.Bit8) s) fun s =>
  let s := delay_ms 5 s
  andThen (write4bits (Mode.FUNCTIONSET ||| BitMode.Bit8) s) fun s =>
  let s := delay_ms 5 s
  andThen (write4bits (Mode.FUNCTIONSET ||| BitMode.Bit4) s) fun s =>
  let s := delay_ms 5 s
  andThen
    (command (Mode.FUNCTIONSET ||| BitMode.Bit4 ||| Dots.Dots5x8 ||| Lines.TwoLine) s)
    fun s =>
  andThen (clear s) fun s =>
  command (Mode.ENTRYMODESET ||| Entries.LEFT ||| Shift.DECREMENT) s

/-- `Lcd::new`: build the struct (`DisplayControl::new()` defaults, the
row-offset table from `cols`) and run `init`; the outcome of `init` is the
outcome of construction. -/
def new (bus : Nat → Option ε) (address cols rows : Nat) : Outcome ε :=
  init {
    bus := bus
    widx := 0
    backlight := Backlight.On
    cursor := Cursor.Off
    display := Display.Off
    blink := Blink.Off
    direction := Direction.LEFT
    address := address
    rows := rows
    row_offsets := [0x00, 0x40, cols, (0x40 + cols) % 256]
    trace := [] }

end Lcd

/-- A bus on which every write succeeds. -/
def okBus : Nat → Option ε := fun _ => none

/-- The event sequence `init` produces on a fully successful bus, with the
default (on) backlight bit 0x08 riding on every byte. -/
def initEvents : List Event :=
  [Event.delayMs 50,
   -- expander_write(backlight)
   Event.busWrite 0x08, Event.delayMs 1,
   -- write4bits(0x30) three times, 5 ms after each
   Event.busWrite 0x38, Event.busWrite 0x3C, Event.delayUs 1,
   Event.busWrite 0x38, Event.delayUs 1, Event.delayMs 5,
   Event.busWrite 0x38, Event.busWrite 0x3C, Event.delayUs 1,
   Event.busWrite 0x38, Event.delayUs 1, Event.delayMs 5,
   Event.busWrite 0x38, Event.busWrite 0x3C, Event.delayUs 1,
   Event.busWrite 0x38, Event.delayUs 1, Event.delayMs 5,
   -- write4bits(0x20), 5 ms
   Event.busWrite 0x28, Event.busWrite 0x2C, Event.delayUs 1,
   Event.busWrite 0x28, Event.delayUs 1, Event.delayMs 5,
   -- command(0x28): two nibbles 0x20, 0x80
   Event.busWrite 0x28, Event.busWrite 0x2C, Event.delayUs 1,
   Event.busWrite 0x28, Event.delayUs 1,
   Event.busWrite 0x88, Event.busWrite 0x8C, Event.delayUs 1,
   Event.busWrite 0x88, Event.delayUs 1,
   -- clear = command(0x01): nibbles 0x00, 0x10, then 2 ms
   Event.busWrite 0x08, Event.busWrite 0x0C, Event.delayUs 1,
   Event.busWrite 0x08, Event.delayUs 1,
   Event.busWrite 0x18, Event.busWrite 0x1C, Event.delayUs 1,
   Event.busWrite 0x18, Event.delayUs 1, Event.delayMs 2,
   -- entry mode = command(0x06): nibbles 0x00, 0x60
   Event.busWrite 0x08, Event.busWrite 0x0C, Event.delayUs 1,
   Event.busWrite 0x08, Event.delayUs 1,
   Event.busWrite 0x68, Event.busWrite 0x6C, Event.delayUs 1,
   Event.busWrite 0x68, Event.delayUs 1]

/-- A bus failing exactly at attempt `k`, with error `e`. -/
def failAt (k : Nat) (e : ε) : Nat → Option ε :=
  fun i => if i = k then some e else none

/-- A bus on which every write fails with error `e`. -/
def allFail (e : ε) : Nat → Option ε := fun _ => some e

/-- The event sequence produced by one successful `send data mode` on a state
whose backlight field is `bl`: two nibbles (high first), each written and then
strobed by the enable pulse. -/
def sendEvents (bl data mode : Nat) : List Event :=
  [Event.busWrite ((data &&& 0xF0 ||| mode ||| bl) % 256),
   Event.busWrite ((data &&& 0xF0 ||| mode ||| 0x04 ||| bl) % 256),
   Event.delayUs 1,
   Event.busWrite (((data &&& 0xF0 ||| mode) &&& 0xFB ||| bl) % 256),
   Event.delayUs 1,
   Event.busWrite ((data <<< 4 &&& 0xF0 ||| mode ||| bl) % 256),
   Event.busWrite ((data <<< 4 &&& 0xF0 ||| mode ||| 0x04 ||| bl) % 256),
   Event.delayUs 1,
   Event.busWrite (((data <<< 4 &&& 0xF0 ||| mode) &&& 0xFB ||| bl) % 256),
   Event.delayUs 1]

/-- The event sequences of successive data-byte sends (register-select role). -/
def sendEventsAll (bl : Nat) : List Nat → List Event
  | [] => []
  | b :: cm => sendEvents bl b 0x01 ++ sendEventsAll bl cm

/-- Every byte of the event list carries all the bits of `bl`. -/
def backlightIn (bl : Nat) (tr : List Event) : Prop :=
  ∀ b ∈ busBytes tr, b ||| bl = b

/-- An operation that, run from any state whose backlight is `bl`, preserves
the backlight field and only appends events whose bytes all carry `bl` —
whatever the bus oracle answers. -/
def BLGood (bl : Nat) (op : St Nat → Outcome Nat) : Prop :=
  ∀ s : St Nat, s.backlight = bl →
    (op s).state.backlight = bl ∧
    ∃ d, (op s).state.trace = s.trace ++ d ∧ backlightIn bl d

/-- Helper: on a fully successful bus, `new` succeeds with 31 bus writes,
the default control flags, the row-offset table built from `cols`, and the
`initEvents` trace. -/
theorem new_ok (address cols rows : Nat) :
    Lcd.new (okBus : Nat → Option Nat) address cols rows = Outcome.ok
      (St.mk okBus 31 0x08 0 0 0 0 address rows
        [0x00, 0x40, cols, (0x40 + cols) % 256] initEvents) := by
  simp [Lcd.new, Lcd.init, Lcd.clear, Lcd.command, Lcd.send, Lcd.write4bits,
    Lcd.pulse_enable, Lcd.expander_write, Lcd.delay_ms, Lcd.delay_us, andThen,
    okBus, initEvents, Mode.FUNCTIONSET, Mode.CLEARDISPLAY, Mode.ENTRYMODESET,
    BitMode.Bit8, BitMode.Bit4, Dots.Dots5x8, Lines.TwoLine, Entries.LEFT,
    Shift.DECREMENT, BitAction.Command, BitAction.Enable, Backlight.On,
    Cursor.Off, Display.Off, Blink.Off, Direction.LEFT]
  decide

/-- C1: for any address and geometry, construction on a fully successful bus
succeeds and its observable behaviour is exactly `initEvents`: a 50 ms delay;
one expander_write carrying only the backlight bit followed by a 1 ms delay;
three raw write4bits sends of 0x30 each followed by 5 ms; one raw write4bits
send of 0x20 followed by 5 ms; then the two-nibble commands 0x28, 0x01
(followed by 2 ms) and 0x06 — 8 logical transport operations (31 bus bytes),
with no other transport calls or delays interleaved. -/
theorem c1_init_sequence (address cols rows : Nat) :
    Lcd.new (okBus : Nat → Option Nat) address cols rows = Outcome.ok {
      bus := okBus, widx := 31, backlight := 0x08, cursor := 0, display := 0,
      blink := 0, direction := 0, address := address, rows := rows,
      row_offsets := [0x00, 0x40, cols, (0x40 + cols) % 256],
      trace := initEvents } := by
  simp [Lcd.new, Lcd.init, Lcd.clear, Lcd.command, Lcd.send, Lcd.write4bits,
    Lcd.pulse_enable, Lcd.expander_write, Lcd.delay_ms, Lcd.delay_us, andThen,
    okBus, initEvents, Mode.FUNCTIONSET, Mode.CLEARDISPLAY, Mode.ENTRYMODESET,
    BitMode.Bit8, BitMode.Bit4, Dots.Dots5x8, Lines.TwoLine, Entries.LEFT,
    Shift.DECREMENT, BitAction.Command, BitAction.Enable, Backlight.On,
    Cursor.Off, Display.Off, Blink.Off, Direction.LEFT]
  decide

/-- C2: for every payload and role tag, on a successful bus `send data mode`
performs exactly two `write4bits` transfers, high nibble first: the bytes on
the bus are those of `write4bits ((data &&& 0xF0) ||| mode)` followed by
those of `write4bits (((data <<< 4) &&& 0xF0) ||| mode)` — never swapped. -/
theorem c2_send_high_then_low (data mode widx bl cur dis blk dir addr rows : Nat)
    (offs : List Nat) (tr : List Event) :
    Lcd.send data mode
      (St.mk (okBus : Nat → Option Nat) widx bl cur dis blk dir addr rows offs tr) =
      Outcome.ok (St.mk okBus (widx + 6) bl cur dis blk dir addr rows offs
        (tr ++
         [Event.busWrite ((data &&& 0xF0 ||| mode ||| bl) % 256),
          Event.busWrite ((data &&& 0xF0 ||| mode ||| 0x04 ||| bl) % 256),
          Event.delayUs 1,
          Event.busWrite (((data &&& 0xF0 ||| mode) &&& 0xFB ||| bl) % 256),
          Event.delayUs 1,
          Event.busWrite ((data <<< 4 &&& 0xF0 ||| mode ||| bl) % 256),
          Event.busWrite ((data <<< 4 &&& 0xF0 ||| mode ||| 0x04 ||| bl) % 256),
          Event.delayUs 1,
          Event.busWrite (((data <<< 4 &&& 0xF0 ||| mode) &&& 0xFB ||| bl) % 256),
          Event.delayUs 1])) := by
  simp [Lcd.send, Lcd.write4bits, Lcd.pulse_enable, Lcd.expander_write,
    Lcd.delay_us, andThen, okBus, BitAction.Enable]

/-- C3: for every value, on a successful bus `pulse_enable data` performs
exactly two `expander_write` transfers — first `data ||| 0x04` (enable bit
set), then `data &&& 0xFB` (enable bit cleared) — each followed by a 1 µs
delay. -/
theorem c3_pulse_enable_strobe (data widx bl cur dis blk dir addr rows : Nat)
    (offs : List Nat) (tr : List Event) :
    Lcd.pulse_enable data
      (St.mk (okBus : Nat → Option Nat) widx bl cur dis blk dir addr rows offs tr) =
      Outcome.ok (St.mk okBus (widx + 2) bl cur dis blk dir addr rows offs
        (tr ++
         [Event.busWrite ((data ||| 0x04 ||| bl) % 256), Event.delayUs 1,
          Event.busWrite ((data &&& 0xFB ||| bl) % 256), Event.delayUs 1])) := by
  simp [Lcd.pulse_enable, Lcd.expander_write, Lcd.delay_us, andThen, okBus,
    BitAction.Enable]

/-- C7: a bus failing at attempt 4 — the first write of the second 8-bit-mode
send — makes construction return exactly that error, having performed exactly
5 write attempts (4 successful bytes on the trace, then the failing one), and
nothing after; moreover, for every one of the 31 init write attempts, failing
there surfaces a bus error after exactly that many attempts. -/
theorem c7_init_failure_aborts (e address cols rows : Nat) :
    (Lcd.new (failAt 4 e) address cols rows = Outcome.bus e
      (St.mk (failAt 4 e) 5 0x08 0 0 0 0 address rows
        [0x00, 0x40, cols, (0x40 + cols) % 256]
        [Event.delayMs 50, Event.busWrite 0x08, Event.delayMs 1,
         Event.busWrite 0x38, Event.busWrite 0x3C, Event.delayUs 1,
         Event.busWrite 0x38, Event.delayUs 1, Event.delayMs 5])) ∧
    (∀ k, k < 31 → (Lcd.new (failAt k 0) 0x27 16 2).isBusErr = true ∧
      (Lcd.new (failAt k 0) 0x27 16 2).state.widx = k + 1) := by
  constructor
  · simp [Lcd.new, Lcd.init, Lcd.clear, Lcd.command, Lcd.send, Lcd.write4bits,
      Lcd.pulse_enable, Lcd.expander_write, Lcd.delay_ms, Lcd.delay_us, andThen,
      failAt, Mode.FUNCTIONSET, Mode.CLEARDISPLAY, Mode.ENTRYMODESET,
      BitMode.Bit8, BitMode.Bit4, Dots.Dots5x8, Lines.TwoLine, Entries.LEFT,
      Shift.DECREMENT, BitAction.Command, BitAction.Enable, Backlight.On,
      Cursor.Off, Display.Off, Blink.Off, Direction.LEFT]
    decide
  · decide

/-- Witness for C7 at a concrete input: failing attempt 4 on a 16×2 display
at address 0x27 yields a bus error after exactly 5 attempts. -/
theorem c7_init_failure_aborts_witness :
    (Lcd.new (failAt 4 0) 0x27 16 2).isBusErr = true ∧
      (Lcd.new (failAt 4 0) 0x27 16 2).state.widx = 4 + 1 :=
  (c7_init_failure_aborts 0 0x27 16 2).2 4 (by decide)

/-- Helper: `andThen` cannot introduce a panic. -/
theorem isPanic_andThen (o : Outcome Nat) (g : St Nat → Outcome Nat)
    (ho : o.isPanic = false) (hg : ∀ s, (g s).isPanic = false) :
    (andThen o g).isPanic = false := by
  cases o with
  | ok s => exact hg s
  | bus e s => rfl
  | panic s => simp [Outcome.isPanic] at ho

/-- Helper: `expander_write` never panics. -/
theorem expander_not_panic (data : Nat) (s : St Nat) :
    (Lcd.expander_write data s).isPanic = false := by
  unfold Lcd.expander_write
  cases s.bus s.widx <;> rfl

/-- Helper: `pulse_enable` never panics. -/
theorem pulse_not_panic (data : Nat) (s : St Nat) :
    (Lcd.pulse_enable data s).isPanic = false := by
  unfold Lcd.pulse_enable
  exact isPanic_andThen _ _ (expander_not_panic _ _) fun _ =>
    isPanic_andThen _ _ (expander_not_panic _ _) fun _ => rfl

/-- Helper: `write4bits` never panics. -/
theorem write4bits_not_panic (v : Nat) (s : St Nat) :
    (Lcd.write4bits v s).isPanic = false :=
  isPanic_andThen _ _ (expander_not_panic _ _) fun _ => pulse_not_panic _ _

/-- Helper: `send` never panics. -/
theorem send_not_panic (data mode : Nat) (s : St Nat) :
    (Lcd.send data mode s).isPanic = false :=
  isPanic_andThen _ _ (write4bits_not_panic _ _) fun _ => write4bits_not_panic _ _

/-- C4: a driver constructed with `cols`/`rows` carries the row-offset table
`[0x00, 0x40, cols, 0x40 + cols]` (the last entry as a `u8`), and
`set_cursor_position col row` issues exactly one command, whose byte is
`0x80 ||| (col + row_offsets[r'])` where `r' = min (min row 3) (rows - 1)` is
the row clamped into `[0, 3]` and into `[0, rows - 1]`. -/
theorem c4_cursor_position_addressing (address cols rows col row : Nat)
    (h1 : 1 ≤ rows) (h2 : rows < 256) :
    ∃ s, Lcd.new (okBus : Nat → Option Nat) address cols rows = Outcome.ok s ∧
      s.row_offsets = [0x00, 0x40, cols, (0x40 + cols) % 256] ∧
      min (min row 3) (rows - 1) ≤ 3 ∧
      min (min row 3) (rows - 1) ≤ rows - 1 ∧
      Lcd.set_cursor_position col row s =
        Lcd.command (0x80 |||
          ((col + s.row_offsets.getD (min (min row 3) (rows - 1)) 0) % 256)) s := by
  refine ⟨_, new_ok address cols rows, rfl, by omega, by omega, ?_⟩
  have e1 : u8sub rows 1 = rows - 1 := by simp [u8sub]; omega
  simp only [Lcd.set_cursor_position, e1]
  have hmin : (if (if row ≥ ([0x00, 0x40, cols, (0x40 + cols) % 256] : List Nat).length
      then ([0x00, 0x40, cols, (0x40 + cols) % 256] : List Nat).length - 1 else row) ≥ rows
      then rows - 1
      else (if row ≥ ([0x00, 0x40, cols, (0x40 + cols) % 256] : List Nat).length
        then ([0x00, 0x40, cols, (0x40 + cols) % 256] : List Nat).length - 1 else row))
      = min (min row 3) (rows - 1) := by
    simp only [List.length_cons, List.length_nil]
    split_ifs <;> omega
  rw [hmin]
  have hm4 : min (min row 3) (rows - 1) < 4 := by omega
  set m := min (min row 3) (rows - 1) with hm
  interval_cases m <;> simp [List.getD, Mode.SETDDRAMADDR]

/-- Witness for C4: a 16×2 display at address 0x27; requested row 5 is
clamped to row 1 and the DDRAM command byte uses offset 0x40. -/
theorem c4_cursor_position_addressing_witness :
    ∃ s, Lcd.new (okBus : Nat → Option Nat) 0x27 16 2 = Outcome.ok s ∧
      s.row_offsets = [0x00, 0x40, 16, (0x40 + 16) % 256] ∧
      min (min 5 3) (2 - 1) ≤ 3 ∧
      min (min 5 3) (2 - 1) ≤ 2 - 1 ∧
      Lcd.set_cursor_position 3 5 s =
        Lcd.command (0x80 |||
          ((3 + s.row_offsets.getD (min (min 5 3) (2 - 1)) 0) % 256)) s :=
  c4_cursor_position_addressing 0x27 16 2 3 5 (by decide) (by decide)

/-- Helper: one successful `send` appends exactly `sendEvents` and uses six
write attempts. -/
theorem send_ok (data mode widx bl cur dis blk dir addr rows : Nat)
    (offs : List Nat) (tr : List Event) :
    Lcd.send data mode
      (St.mk (okBus : Nat → Option Nat) widx bl cur dis blk dir addr rows offs tr) =
      Outcome.ok (St.mk okBus (widx + 6) bl cur dis blk dir addr rows offs
        (tr ++ sendEvents bl data mode)) := by
  simp [Lcd.send, Lcd.write4bits, Lcd.pulse_enable, Lcd.expander_write,
    Lcd.delay_us, andThen, okBus, BitAction.Enable, sendEvents]

/-- Helper: the `create_char` bitmap loop on a successful bus sends each byte
as a data byte, in order. -/
theorem create_loop_ok (cm : List Nat) :
    ∀ (widx bl cur dis blk dir addr rows : Nat) (offs : List Nat) (tr : List Event),
    cm.foldl (fun o item => andThen o fun s => ignoreErr (Lcd.write item s))
      (Outcome.ok (St.mk (okBus : Nat → Option Nat) widx bl cur dis blk dir addr rows offs tr)) =
    Outcome.ok (St.mk okBus (widx + 6 * cm.length) bl cur dis blk dir addr rows offs
      (tr ++ sendEventsAll bl cm)) := by
  induction cm with
  | nil => intro widx bl cur dis blk dir addr rows offs tr; simp [sendEventsAll]
  | cons b cm ih =>
    intro widx bl cur dis blk dir addr rows offs tr
    rw [List.foldl_cons]
    have h1 : andThen (Outcome.ok (St.mk (okBus : Nat → Option Nat) widx bl cur dis blk dir addr rows offs tr))
        (fun s => ignoreErr (Lcd.write b s)) =
        Outcome.ok (St.mk okBus (widx + 6) bl cur dis blk dir addr rows offs
          (tr ++ sendEvents bl b 0x01)) := by
      simp only [andThen, Lcd.write, BitAction.RegisterSelect, send_ok, ignoreErr]
    rw [h1, ih]
    simp [St.mk.injEq, sendEventsAll, List.append_assoc, Nat.mul_succ]
    omega

/-- C8: `create_char` masks the location to its low 3 bits, issues the
set-CGRAM-address command `0x40 ||| (location <<< 3)`, then sends the bitmap
bytes as data bytes, in order; and on a bus where every write fails it still
returns success, attempting the command and every one of the 8 bitmap writes
(9 attempts, nothing on the trace) — unlike `write`, which surfaces the
error. -/
theorem c8_create_char_swallows_errors (loc : Nat) (cm : List Nat)
    (widx bl cur dis blk dir addr rows : Nat) (offs : List Nat) (tr : List Event) :
    (Lcd.create_char loc cm
      (St.mk (okBus : Nat → Option Nat) widx bl cur dis blk dir addr rows offs tr) =
      Outcome.ok (St.mk okBus (widx + 6 + 6 * cm.length) bl cur dis blk dir addr rows offs
        (tr ++ sendEvents bl (0x40 ||| ((loc &&& 0x7) <<< 3)) 0 ++ sendEventsAll bl cm))) ∧
    ((Lcd.create_char 10 [1, 2, 3, 4, 5, 6, 7, 8]
        (St.mk (allFail 0 : Nat → Option Nat) 0 0x08 0 0 0 0 0x27 2
          [0x00, 0x40, 16, 0x50] [])).isOk = true ∧
     (Lcd.create_char 10 [1, 2, 3, 4, 5, 6, 7, 8]
        (St.mk (allFail 0 : Nat → Option Nat) 0 0x08 0 0 0 0 0x27 2
          [0x00, 0x40, 16, 0x50] [])).state.widx = 9 ∧
     (Lcd.create_char 10 [1, 2, 3, 4, 5, 6, 7, 8]
        (St.mk (allFail 0 : Nat → Option Nat) 0 0x08 0 0 0 0 0x27 2
          [0x00, 0x40, 16, 0x50] [])).state.trace = []) ∧
    (Lcd.write 0x41
      (St.mk (allFail 0 : Nat → Option Nat) 0 0x08 0 0 0 0 0x27 2
        [0x00, 0x40, 16, 0x50] [])).isBusErr = true := by
  refine ⟨?_, by decide, by decide⟩
  have andThen_ok : ∀ (t : St Nat) (f : St Nat → Outcome Nat),
      andThen (Outcome.ok t) f = f t := fun _ _ => rfl
  have ignore_ok : ∀ t : St Nat, ignoreErr (Outcome.ok t) = Outcome.ok t :=
    fun _ => rfl
  rw [Lcd.create_char, Lcd.command, Mode.SETCGRAMADDR, BitAction.Command,
    send_ok, ignore_ok, andThen_ok]
  rw [create_loop_ok]

/-- C10: with `rows ≥ 1` (and a 4-entry offset table) `set_cursor_position`
never panics — the clamped index stays in bounds whatever the bus does —
while on a driver constructed with `rows = 0` the wrapping `rows - 1`
subtraction produces index 255 and the table access panics. -/
theorem c10_set_cursor_position_safety (s : St Nat) (address cols col row : Nat)
    (h1 : 1 ≤ s.rows) (h2 : s.rows < 256) (h3 : s.row_offsets.length = 4) :
    (Lcd.set_cursor_position col row s).isPanic = false ∧
    (∃ s0, Lcd.new (okBus : Nat → Option Nat) address cols 0 = Outcome.ok s0 ∧
      Lcd.set_cursor_position col row s0 = Outcome.panic s0) := by
  constructor
  · have e1 : u8sub s.rows 1 = s.rows - 1 := by simp [u8sub]; omega
    simp only [Lcd.set_cursor_position, e1, h3]
    set idx := (if (if row ≥ 4 then 4 - 1 else row) ≥ s.rows then s.rows - 1
      else (if row ≥ 4 then 4 - 1 else row)) with hidx
    have hlt : idx < 4 := by rw [hidx]; split_ifs <;> omega
    cases hoff : s.row_offsets.get? idx with
    | none => exact absurd (List.get?_eq_none.mp hoff) (by omega)
    | some off => simp [hoff]; exact send_not_panic _ _ _
  · refine ⟨_, new_ok address cols 0, ?_⟩
    have e0 : u8sub 0 1 = 255 := by decide
    simp only [Lcd.set_cursor_position, e0]
    have h255 : ([0x00, 0x40, cols, (0x40 + cols) % 256] : List Nat).get? 255 = none := by
      apply List.get?_eq_none.mpr; simp
    simp [h255]

set_option maxRecDepth 100000

/-- C5: `print` walks the characters in order. A newline advances the local
`u8` row counter to `clamp (row+1) 1 rows`, i.e. to
`min (max ((row+1) % 256) 1) rows` with the wrapping `u8` increment, and
issues `set_cursor_position 0 row`; any other character is sent as one data
byte (register-select role). On the 16×2 display, `print "AB\nC"` emits
write('A'), write('B'), the row-1 cursor command 0xC0, write('C'), in that
order; further newlines keep re-addressing the last row (never wrapping back
to row 0); and the first bus error aborts the remaining characters. -/
theorem c5_print_iterates_characters (s : St Nat) (c : Char) (cs : List Char)
    (row : Nat) (h1 : 1 ≤ s.rows) (h2 : c ≠ '\n') :
    (Lcd.printGo ('\n' :: cs) row s =
      andThen (Lcd.set_cursor_position 0 (min (max ((row + 1) % 256) 1) s.rows) s)
        (Lcd.printGo cs (min (max ((row + 1) % 256) 1) s.rows))) ∧
    (Lcd.printGo (c :: cs) row s =
      andThen (Lcd.write (c.toNat % 256) s) (Lcd.printGo cs row)) ∧
    (((Lcd.print ['A', 'B', '\n', 'C']
        ((Lcd.new (okBus : Nat → Option Nat) 0x27 16 2).state)).isOk = true) ∧
     (Lcd.print ['A', 'B', '\n', 'C']
        ((Lcd.new (okBus : Nat → Option Nat) 0x27 16 2).state)).state.trace =
      initEvents ++ sendEvents 8 0x41 1 ++ sendEvents 8 0x42 1 ++
        sendEvents 8 0xC0 0 ++ sendEvents 8 0x43 1) ∧
    ((Lcd.print ['A', '\n', '\n', '\n', 'B']
        ((Lcd.new (okBus : Nat → Option Nat) 0x27 16 2).state)).state.trace =
      initEvents ++ sendEvents 8 0x41 1 ++ sendEvents 8 0xC0 0 ++
        sendEvents 8 0xC0 0 ++ sendEvents 8 0xC0 0 ++ sendEvents 8 0x42 1) ∧
    (((Lcd.print ['A', 'B', '\n', 'C']
        ((Lcd.new (failAt 37 0) 0x27 16 2).state)).isBusErr = true) ∧
     (Lcd.print ['A', 'B', '\n', 'C']
        ((Lcd.new (failAt 37 0) 0x27 16 2).state)).state.trace =
      initEvents ++ sendEvents 8 0x41 1 ∧
     (Lcd.print ['A', 'B', '\n', 'C']
        ((Lcd.new (failAt 37 0) 0x27 16 2).state)).state.widx = 38) := by
  refine ⟨?_, ?_, by decide, by decide, by decide⟩
  · have hc : ¬ (s.rows < 1) := by omega
    simp [Lcd.printGo, u8clamp, hc]
  · simp [Lcd.printGo, h2]

/-- Witness for C5 on a concrete 16×2 driver state, with `c := 'A'`,
`cs := []`, `row := 0`. -/
theorem c5_print_iterates_characters_witness :
    (Lcd.printGo ['\n'] 0
        (St.mk (okBus : Nat → Option Nat) 0 0x08 0 0 0 0 0x27 2
          [0x00, 0x40, 16, 0x50] []) =
      andThen (Lcd.set_cursor_position 0
          (min (max ((0 + 1) % 256) 1)
            (St.mk (okBus : Nat → Option Nat) 0 0x08 0 0 0 0 0x27 2
              [0x00, 0x40, 16, 0x50] []).rows)
          (St.mk (okBus : Nat → Option Nat) 0 0x08 0 0 0 0 0x27 2
            [0x00, 0x40, 16, 0x50] []))
        (Lcd.printGo []
          (min (max ((0 + 1) % 256) 1)
            (St.mk (okBus : Nat → Option Nat) 0 0x08 0 0 0 0 0x27 2
              [0x00, 0x40, 16, 0x50] []).rows))) ∧
    (Lcd.printGo ['A'] 0
        (St.mk (okBus : Nat → Option Nat) 0 0x08 0 0 0 0 0x27 2
          [0x00, 0x40, 16, 0x50] []) =
      andThen (Lcd.write ('A'.toNat % 256)
          (St.mk (okBus : Nat → Option Nat) 0 0x08 0 0 0 0 0x27 2
            [0x00, 0x40, 16, 0x50] []))
        (Lcd.printGo [] 0)) ∧
    (((Lcd.print ['A', 'B', '\n', 'C']
        ((Lcd.new (okBus : Nat → Option Nat) 0x27 16 2).state)).isOk = true) ∧
     (Lcd.print ['A', 'B', '\n', 'C']
        ((Lcd.new (okBus : Nat → Option Nat) 0x27 16 2).state)).state.trace =
      initEvents ++ sendEvents 8 0x41 1 ++ sendEvents 8 0x42 1 ++
        sendEvents 8 0xC0 0 ++ sendEvents 8 0x43 1) ∧
    ((Lcd.print ['A', '\n', '\n', '\n', 'B']
        ((Lcd.new (okBus : Nat → Option Nat) 0x27 16 2).state)).state.trace =
      initEvents ++ sendEvents 8 0x41 1 ++ sendEvents 8 0xC0 0 ++
        sendEvents 8 0xC0 0 ++ sendEvents 8 0xC0 0 ++ sendEvents 8 0x42 1) ∧
    (((Lcd.print ['A', 'B', '\n', 'C']
        ((Lcd.new (failAt 37 0) 0x27 16 2).state)).isBusErr = true) ∧
     (Lcd.print ['A', 'B', '\n', 'C']
        ((Lcd.new (failAt 37 0) 0x27 16 2).state)).state.trace =
      initEvents ++ sendEvents 8 0x41 1 ∧
     (Lcd.print ['A', 'B', '\n', 'C']
        ((Lcd.new (failAt 37 0) 0x27 16 2).state)).state.widx = 38) :=
  c5_print_iterates_characters
    (St.mk okBus 0 0x08 0 0 0 0 0x27 2 [0x00, 0x40, 16, 0x50] [])
    'A' [] 0 (by decide) (by decide)

/-- C9 counterexample: on a 16×4 display, a first `print "\n"` re-addresses
row 1 (command byte 0xC0). If the row reached by newlines persisted in the
driver, a second `print "\n"` would continue at row 2 (offset 16, command
byte 0x90); instead the second call issues the row-1 command 0xC0 again —
and the 0xC0 command events differ from the 0x90 ones. -/
theorem c9_row_persistence_counterexample :
    ((Lcd.print ['\n']
        ((Lcd.new (okBus : Nat → Option Nat) 0x27 16 4).state)).isOk = true) ∧
    (Lcd.print ['\n']
        ((Lcd.new (okBus : Nat → Option Nat) 0x27 16 4).state)).state.trace =
      initEvents ++ sendEvents 8 0xC0 0 ∧
    (Lcd.print ['\n'] ((Lcd.print ['\n']
        ((Lcd.new (okBus : Nat → Option Nat) 0x27 16 4).state)).state)).state.trace =
      initEvents ++ sendEvents 8 0xC0 0 ++ sendEvents 8 0xC0 0 ∧
    sendEvents 8 0xC0 0 ≠ sendEvents 8 0x90 0 := by
  decide

/-- C9 (amended): the `Lcd` value holds no current-row cursor state; the row
counter of `print` is a local that restarts at 0 on every call, so a
subsequent `print` call's newline wrapping restarts from row 0 rather than
continuing from the row the previous call reached — as the identical traces
of two consecutive `print "\n"` calls on a 16×4 display show. -/
theorem c9_print_row_is_call_local (cs : List Char) (s : St Nat) :
    (Lcd.print cs s = Lcd.printGo cs 0 s) ∧
    ((Lcd.print ['\n']
        ((Lcd.new (okBus : Nat → Option Nat) 0x27 16 4).state)).state.trace =
      initEvents ++ sendEvents 8 0xC0 0 ∧
     (Lcd.print ['\n'] ((Lcd.print ['\n']
        ((Lcd.new (okBus : Nat → Option Nat) 0x27 16 4).state)).state)).state.trace =
      initEvents ++ sendEvents 8 0xC0 0 ++ sendEvents 8 0xC0 0) :=
  ⟨rfl, by decide⟩

/-- Witness for C10: a 16×2 driver state (rows = 1 + 1 ≥ 1) never panics on
`set_cursor_position 3 5`, and a 16×0 driver panics there. -/
theorem c10_set_cursor_position_safety_witness :
    (Lcd.set_cursor_position 3 5
      (St.mk (okBus : Nat → Option Nat) 0 0x08 0 0 0 0 0x27 2
        [0x00, 0x40, 16, 0x50] [])).isPanic = false ∧
    (∃ s0, Lcd.new (okBus : Nat → Option Nat) 0x27 16 0 = Outcome.ok s0 ∧
      Lcd.set_cursor_position 3 5 s0 = Outcome.panic s0) :=
  c10_set_cursor_position_safety
    (St.mk okBus 0 0x08 0 0 0 0 0x27 2 [0x00, 0x40, 16, 0x50] [])
    0x27 16 3 5 (by decide) (by decide) (by decide)

theorem busBytes_append (d1 d2 : List Event) :
    busBytes (d1 ++ d2) = busBytes d1 ++ busBytes d2 := by
  induction d1 with
  | nil => rfl
  | cons e d ih => cases e <;> simp [busBytes, ih]

theorem backlightIn_nil (bl : Nat) : backlightIn bl [] := by
  intro b hb; simp [busBytes] at hb

theorem backlightIn_append {bl : Nat} {d1 d2 : List Event}
    (h1 : backlightIn bl d1) (h2 : backlightIn bl d2) :
    backlightIn bl (d1 ++ d2) := by
  intro b hb
  rw [busBytes_append] at hb
  rcases List.mem_append.mp hb with h | h
  · exact h1 b h
  · exact h2 b h

theorem or_lt_256 {a b : Nat} (ha : a < 256) (hb : b < 256) : a ||| b < 256 := by
  have h : a ||| b < 2 ^ 8 := Nat.bitwise_lt (f := or) (by omega) (by omega)
  omega

theorem or_mod_byte {data bl : Nat} (hd : data < 256) (hb : bl < 256) :
    ((data ||| bl) % 256) ||| bl = (data ||| bl) % 256 := by
  rw [Nat.mod_eq_of_lt (or_lt_256 hd hb), Nat.or_assoc, Nat.or_self]

theorem bg_andThen {bl : Nat} {f g : St Nat → Outcome Nat}
    (hf : BLGood bl f) (hg : BLGood bl g) :
    BLGood bl (fun s => andThen (f s) g) := by
  intro s hs
  rcases hf s hs with ⟨hb1, d1, ht1, hd1⟩
  cases hfs : f s with
  | ok s1 =>
    simp only [hfs, Outcome.state] at hb1 ht1
    rcases hg s1 hb1 with ⟨hb2, d2, ht2, hd2⟩
    refine ⟨?_, d1 ++ d2, ?_, backlightIn_append hd1 hd2⟩
    · simpa [andThen, hfs] using hb2
    · simp only [andThen, hfs]
      rw [ht2, ht1, List.append_assoc]
  | bus e s1 =>
    simp only [hfs, Outcome.state] at hb1 ht1
    exact ⟨by simpa [andThen, hfs, Outcome.state] using hb1, d1,
      by simpa [andThen, hfs, Outcome.state] using ht1, hd1⟩
  | panic s1 =>
    simp only [hfs, Outcome.state] at hb1 ht1
    exact ⟨by simpa [andThen, hfs, Outcome.state] using hb1, d1,
      by simpa [andThen, hfs, Outcome.state] using ht1, hd1⟩

theorem bg_expander {bl data : Nat} (hbl : bl < 256) (hd : data < 256) :
    BLGood bl (Lcd.expander_write data) := by
  intro s hs
  unfold Lcd.expander_write
  cases s.bus s.widx with
  | some e =>
    exact ⟨hs, [], by simp [Outcome.state], backlightIn_nil bl⟩
  | none =>
    refine ⟨hs, [Event.busWrite ((data ||| s.backlight) % 256)],
      by simp [Outcome.state], ?_⟩
    intro b hb
    simp [busBytes] at hb
    subst hb
    rw [hs]
    exact or_mod_byte hd hbl

theorem bg_expander_self {bl : Nat} (hbl : bl < 256) :
    BLGood bl (fun s => Lcd.expander_write s.backlight s) := by
  intro s hs
  exact bg_expander hbl (by omega : s.backlight < 256) s hs
  -- note: hs : s.backlight = bl gives the bound

theorem bg_pre_ms {bl : Nat} {f : St Nat → Outcome Nat} (n : Nat)
    (hf : BLGood bl f) : BLGood bl (fun s => f (Lcd.delay_ms n s)) := by
  intro s hs
  rcases hf (Lcd.delay_ms n s) (by simpa [Lcd.delay_ms] using hs) with ⟨hb, d, ht, hd⟩
  refine ⟨hb, Event.delayMs n :: d, ?_, ?_⟩
  · rw [ht]; simp [Lcd.delay_ms]
  · intro b hbb
    exact hd b (by simpa [busBytes] using hbb)

theorem bg_ok_delay_ms {bl : Nat} (n : Nat) :
    BLGood bl (fun s => Outcome.ok (Lcd.delay_ms n s)) := by
  intro s hs
  refine ⟨hs, [Event.delayMs n], by simp [Outcome.state, Lcd.delay_ms], ?_⟩
  intro b hb; simp [busBytes] at hb

theorem bg_ok_delay_us {bl : Nat} (n : Nat) :
    BLGood bl (fun s => Outcome.ok (Lcd.delay_us n s)) := by
  intro s hs
  refine ⟨hs, [Event.delayUs n], by simp [Outcome.state, Lcd.delay_us], ?_⟩
  intro b hb; simp [busBytes] at hb

theorem bg_pre_us {bl : Nat} {f : St Nat → Outcome Nat} (n : Nat)
    (hf : BLGood bl f) : BLGood bl (fun s => f (Lcd.delay_us n s)) := by
  intro s hs
  rcases hf (Lcd.delay_us n s) (by simpa [Lcd.delay_us] using hs) with ⟨hb, d, ht, hd⟩
  refine ⟨hb, Event.delayUs n :: d, ?_, ?_⟩
  · rw [ht]; simp [Lcd.delay_us]
  · intro b hbb
    exact hd b (by simpa [busBytes] using hbb)

theorem bg_pulse {bl data : Nat} (hbl : bl < 256) (hd : data < 256) :
    BLGood bl (Lcd.pulse_enable data) := by
  have h1 : data ||| BitAction.Enable < 256 := or_lt_256 hd (by decide)
  have h2 : data &&& 0xFB < 256 := lt_of_le_of_lt Nat.and_le_left hd
  intro s hs
  exact bg_andThen (bg_expander hbl h1)
    (bg_andThen (bg_pre_us 1 (bg_expander hbl h2)) (bg_ok_delay_us 1)) s hs

theorem bg_write4bits {bl v : Nat} (hbl : bl < 256) (hv : v < 256) :
    BLGood bl (Lcd.write4bits v) := by
  intro s hs
  exact bg_andThen (bg_expander hbl hv) (bg_pulse hbl hv) s hs

theorem bg_send {bl mode : Nat} (data : Nat) (hbl : bl < 256) (hm : mode < 256) :
    BLGood bl (Lcd.send data mode) := by
  have hhi : data &&& 0xF0 ||| mode < 256 :=
    or_lt_256 (lt_of_le_of_lt Nat.and_le_right (by decide)) hm
  have hlo : data <<< 4 &&& 0xF0 ||| mode < 256 :=
    or_lt_256 (lt_of_le_of_lt Nat.and_le_right (by decide)) hm
  intro s hs
  exact bg_andThen (bg_write4bits hbl hhi) (bg_write4bits hbl hlo) s hs

theorem bg_command {bl : Nat} (data : Nat) (hbl : bl < 256) :
    BLGood bl (Lcd.command data) := by
  intro s hs
  exact bg_send data hbl (by decide : BitAction.Command < 256) s hs

theorem bg_write_op {bl : Nat} (data : Nat) (hbl : bl < 256) :
    BLGood bl (Lcd.write data) := by
  intro s hs
  exact bg_send data hbl (by decide : BitAction.RegisterSelect < 256) s hs

theorem bg_clear {bl : Nat} (hbl : bl < 256) : BLGood bl Lcd.clear := by
  intro s hs
  exact bg_andThen (bg_command Mode.CLEARDISPLAY hbl) (bg_ok_delay_ms 2) s hs

theorem bg_init {bl : Nat} (hbl : bl < 256) : BLGood bl Lcd.init := by
  have h30 : Mode.FUNCTIONSET ||| BitMode.Bit8 < 256 := by decide
  have h20 : Mode.FUNCTIONSET ||| BitMode.Bit4 < 256 := by decide
  intro s hs
  exact bg_pre_ms 50 (bg_andThen (bg_expander_self hbl)
    (bg_pre_ms 1 (bg_andThen (bg_write4bits hbl h30)
      (bg_pre_ms 5 (bg_andThen (bg_write4bits hbl h30)
        (bg_pre_ms 5 (bg_andThen (bg_write4bits hbl h30)
          (bg_pre_ms 5 (bg_andThen (bg_write4bits hbl h20)
            (bg_pre_ms 5 (bg_andThen
              (bg_command (Mode.FUNCTIONSET ||| BitMode.Bit4 ||| Dots.Dots5x8 ||| Lines.TwoLine) hbl)
              (bg_andThen (bg_clear hbl)
                (bg_command (Mode.ENTRYMODESET ||| Entries.LEFT ||| Shift.DECREMENT) hbl))))))))))))) s hs

theorem set_backlight_trace (b : Nat) (hb : b < 256) (s : St Nat) :
    ∃ d, (Lcd.set_backlight b s).state.trace = s.trace ++ d ∧ backlightIn b d := by
  unfold Lcd.set_backlight Lcd.expander_write
  cases s.bus s.widx with
  | some e => exact ⟨[], by simp [Outcome.state], backlightIn_nil b⟩
  | none =>
    refine ⟨[Event.busWrite ((0 ||| b) % 256)], by simp [Outcome.state], ?_⟩
    intro x hx
    simp [busBytes] at hx
    subst hx
    simp [Nat.zero_or, Nat.mod_eq_of_lt hb, Nat.or_self]


/-- C6: every byte any driver operation puts on the bus carries the current
backlight bit-pattern: whatever the bus oracle answers, the events appended by
`command`, `write` (data bytes), `pulse_enable` (nibble strobes) and `init`
consist of bytes `x` with `x ||| backlight = x`; and the bare write of
`set_backlight b` carries the new pattern `b`. -/
theorem c6_backlight_rides_every_byte (s : St Nat) (data b : Nat)
    (hbl : s.backlight < 256) (hd : data < 256) (hb : b < 256) :
    (∃ d, (Lcd.command data s).state.trace = s.trace ++ d ∧
      backlightIn s.backlight d) ∧
    (∃ d, (Lcd.write data s).state.trace = s.trace ++ d ∧
      backlightIn s.backlight d) ∧
    (∃ d, (Lcd.pulse_enable data s).state.trace = s.trace ++ d ∧
      backlightIn s.backlight d) ∧
    (∃ d, (Lcd.init s).state.trace = s.trace ++ d ∧
      backlightIn s.backlight d) ∧
    (∃ d, (Lcd.set_backlight b s).state.trace = s.trace ++ d ∧
      backlightIn b d) :=
  ⟨(bg_command data hbl s rfl).2, (bg_write_op data hbl s rfl).2,
   (bg_pulse hbl hd s rfl).2, (bg_init hbl s rfl).2,
   set_backlight_trace b hb s⟩

/-- Witness for C6 on a concrete 16×2 driver state with backlight 0x08,
`data := 0x41`, `b := 0`. -/
theorem c6_backlight_rides_every_byte_witness :
    (∃ d, (Lcd.command 0x41
        (St.mk (okBus : Nat → Option Nat) 0 0x08 0 0 0 0 0x27 2
          [0x00, 0x40, 16, 0x50] [])).state.trace =
      (St.mk (okBus : Nat → Option Nat) 0 0x08 0 0 0 0 0x27 2
          [0x00, 0x40, 16, 0x50] []).trace ++ d ∧
      backlightIn (St.mk (okBus : Nat → Option Nat) 0 0x08 0 0 0 0 0x27 2
          [0x00, 0x40, 16, 0x50] []).backlight d) ∧
    (∃ d, (Lcd.write 0x41
        (St.mk (okBus : Nat → Option Nat) 0 0x08 0 0 0 0 0x27 2
          [0x00, 0x40, 16, 0x50] [])).state.trace =
      (St.mk (okBus : Nat → Option Nat) 0 0x08 0 0 0 0 0x27 2
          [0x00, 0x40, 16, 0x50] []).trace ++ d ∧
      backlightIn (St.mk (okBus : Nat → Option Nat) 0 0x08 0 0 0 0 0x27 2
          [0x00, 0x40, 16, 0x50] []).backlight d) ∧
    (∃ d, (Lcd.pulse_enable 0x41
        (St.mk (okBus : Nat → Option Nat) 0 0x08 0 0 0 0 0x27 2
          [0x00, 0x40, 16, 0x50] [])).state.trace =
      (St.mk (okBus : Nat → Option Nat) 0 0x08 0 0 0 0 0x27 2
          [0x00, 0x40, 16, 0x50] []).trace ++ d ∧
      backlightIn (St.mk (okBus : Nat → Option Nat) 0 0x08 0 0 0 0 0x27 2
          [0x00, 0x40, 16, 0x50] []).backlight d) ∧
    (∃ d, (Lcd.init
        (St.mk (okBus : Nat → Option Nat) 0 0x08 0 0 0 0 0x27 2
          [0x00, 0x40, 16, 0x50] [])).state.trace =
      (St.mk (okBus : Nat → Option Nat) 0 0x08 0 0 0 0 0x27 2
          [0x00, 0x40, 16, 0x50] []).trace ++ d ∧
      backlightIn (St.mk (okBus : Nat → Option Nat) 0 0x08 0 0 0 0 0x27 2
          [0x00, 0x40, 16, 0x50] []).backlight d) ∧
    (∃ d, (Lcd.set_backlight 0
        (St.mk (okBus : Nat → Option Nat) 0 0x08 0 0 0 0 0x27 2
          [0x00, 0x40, 16, 0x50] [])).state.trace =
      (St.mk (okBus : Nat → Option Nat) 0 0x08 0 0 0 0 0x27 2
          [0x00, 0x40, 16, 0x50] []).trace ++ d ∧
      backlightIn 0 d) :=
  c6_backlight_rides_every_byte
    (St.mk okBus 0 0x08 0 0 0 0 0x27 2 [0x00, 0x40, 16, 0x50] [])
    0x41 0 (by decide) (by decide) (by decide)

end Screen
